import Mathlib

/-!
Verification of the ProjetoP2_IoT ESP32 MQTT application.

Shallow embedding of the C sources:
  - `src/services/mqtt.c`: `mqtt_publish_data`, `mqtt_app_start`,
    `processar_mensagem_mqtt`, `mqtt_publisher_task`
  - `src/services/mqtt_system.h`: `mqtt_statistics_t` and the declared
    statistics / connectivity API (declarations only; the implementing
    `.c` file is not part of the sources)
  - `src/tasks/custom_publish_task.c`, `src/tasks/sensor_simulate_task.c`

C strings are modelled as `List Char` without the trailing NUL and with
no embedded NUL bytes (all strings handled by the program are text);
`strlen` is then `List.length`.  Machine integers are modelled as
`Nat`/`Int`: none of the verified properties involves wraparound.
-/

/-- Session state of the broker connection.  Modelled from the spec:
the C sources keep no explicit session enum (connectivity is tracked by
the missing `mqtt_system.c`); the spec defines
SessionState = {Idle, Connecting, Connected, Disconnected, Faulted}. -/
inductive SessionState where
  | idle
  | connecting
  | connected
  | disconnected
  | faulted
deriving DecidableEq, Repr

/-- `mqtt_statistics_t` from `src/services/mqtt_system.h` (lines 65-73).
Field names follow the header; the spec's names map as:
published_count = `total_publicadas`, received_count = `total_recebidas`,
publish_failures = `falhas_publicacao`, disconnect_count = `desconexoes`,
disconnected_time_ms = `tempo_desconectado_ms`,
last_message_ts = `ultima_mensagem_ts`. -/
structure mqtt_statistics_t where
  total_publicadas : Nat
  total_recebidas : Nat
  falhas_publicacao : Nat
  desconexoes : Nat
  tempo_desconectado_ms : Nat
  ultima_mensagem_ts : Nat
deriving DecidableEq, Repr

/-- Global state visible to the embedded operations: whether the global
`mqtt_client` handle is non-NULL (`src/services/mqtt.c` line 24), the
session state of the transport connection, and the statistics store. -/
structure MqttState where
  clientInit : Bool
  session : SessionState
  stats : mqtt_statistics_t
deriving DecidableEq, Repr

/-- Modelled from the spec: `mqtt_system_is_connected` is declared in
`src/services/mqtt_system.h` (line 127) but its definition is not among
the sources.  The spec defines it as a non-blocking read of current
state equality to `Connected`. -/
def mqtt_system_is_connected (s : MqttState) : Bool :=
  s.session = SessionState.connected

/-- Arguments of one call to the transport primitive
`esp_mqtt_client_publish` (equally: of one call to `mqtt_publish_data`). -/
structure PublishCall where
  topic : List Char
  data : List Char
  len : Int
  qos : Int
  retain : Bool
deriving DecidableEq, Repr

/-- Result of one `mqtt_publish_data` call: the returned value (`msg_id`
or `-1`), the transport publish call performed (if any), and the
statistics store afterwards. -/
structure PublishOutcome where
  ret : Int
  call : Option PublishCall
  stats : mqtt_statistics_t
deriving DecidableEq, Repr

/-- `mqtt_publish_data` from `src/services/mqtt.c` (lines 434-477).
The external transport's return value is the oracle `transportMsgId`
(what `esp_mqtt_client_publish` would return for this call).
The C function:
  1. returns `-1` without any transport call if `mqtt_client == NULL`;
  2. if `len == 0`, sets `len = strlen(data)`;
  3. calls `esp_mqtt_client_publish`; returns `-1` if that is negative,
     else returns the `msg_id`.
It never reads the session state and never touches any
`mqtt_statistics_t` field. -/
def mqtt_publish_data (s : MqttState) (topic data : List Char)
    (len qos : Int) (retain : Bool) (transportMsgId : Int) : PublishOutcome :=
  if s.clientInit = false then
    { ret := -1, call := none, stats := s.stats }
  else
    let len2 : Int := if len = 0 then (data.length : Int) else len
    let call : PublishCall :=
      { topic := topic, data := data, len := len2, qos := qos, retain := retain }
    if transportMsgId < 0 then
      { ret := -1, call := some call, stats := s.stats }
    else
      { ret := transportMsgId, call := some call, stats := s.stats }

/-- The all-zero statistics store. -/
def stats0 : mqtt_statistics_t :=
  { total_publicadas := 0, total_recebidas := 0, falhas_publicacao := 0,
    desconexoes := 0, tempo_desconectado_ms := 0, ultima_mensagem_ts := 0 }

/-- A state whose client handle is initialized but whose session is
disconnected: reachable whenever the broker connection drops after
`mqtt_app_start` succeeded. -/
def stateDisconnected : MqttState :=
  { clientInit := true, session := SessionState.disconnected, stats := stats0 }

/-- A state whose client handle is initialized and whose session is
connected. -/
def stateConnected : MqttState :=
  { clientInit := true, session := SessionState.connected, stats := stats0 }

/-- Shorthand for C string literals. -/
def str (s : String) : List Char :=
  s.toList

/-- C1: the claim says `mqtt_publish_data` returns the NotConnected
error and performs no transport call whenever `is_connected()` is
false.  The code contradicts the header's own note
(`mqtt_system.h` line 139: "Retorna erro se o MQTT não estiver
conectado"): it only checks `mqtt_client == NULL`, so in a state whose
client is initialized but disconnected it still calls
`esp_mqtt_client_publish` and returns that call's `msg_id`. -/
theorem publish_ignores_connectivity_bug :
    mqtt_system_is_connected stateDisconnected = false ∧
    (mqtt_publish_data stateDisconnected (str "demo/x") (str "y")
        1 0 false 5).call ≠ none ∧
    (mqtt_publish_data stateDisconnected (str "demo/x") (str "y")
        1 0 false 5).ret = 5 := by
  decide

/-- C2 counterexample: a successful transport publish (the transport
returns `msg_id = 7`) from the all-zero statistics state leaves
`total_publicadas` at 0; the claim would require it to become 1. -/
theorem publish_no_stats_counterexample :
    0 ≤ (mqtt_publish_data stateConnected (str "demo/x") (str "y")
        1 0 false 7).ret ∧
    (mqtt_publish_data stateConnected (str "demo/x") (str "y")
        1 0 false 7).stats.total_publicadas ≠
      stateConnected.stats.total_publicadas + 1 := by
  decide

/-- C2 amended: `mqtt_publish_data` never modifies the statistics
store, on success and on failure alike — the `mqtt_statistics_t`
counters are declared in `mqtt_system.h` but no code in the sources
updates them on the publish path. -/
theorem publish_leaves_stats_unchanged (s : MqttState)
    (topic data : List Char) (len qos : Int) (retain : Bool)
    (transportMsgId : Int) :
    (mqtt_publish_data s topic data len qos retain transportMsgId).stats
      = s.stats := by
  unfold mqtt_publish_data
  by_cases h : s.clientInit = false <;> simp [h] <;>
    by_cases h2 : transportMsgId < 0 <;> simp [h2]

/-- C10: with the client initialized, a `len` argument of 0 makes
`mqtt_publish_data` pass `strlen(data)` (the length of the NUL-free
payload) to the transport, and any nonzero `len` is passed as-is. -/
theorem publish_len_zero_means_strlen (s : MqttState)
    (topic data : List Char) (len qos : Int) (retain : Bool)
    (transportMsgId : Int) (hc : s.clientInit = true) (hl : len ≠ 0) :
    (mqtt_publish_data s topic data 0 qos retain transportMsgId).call =
      some { topic := topic, data := data, len := (data.length : Int),
             qos := qos, retain := retain } ∧
    (mqtt_publish_data s topic data len qos retain transportMsgId).call =
      some { topic := topic, data := data, len := len,
             qos := qos, retain := retain } := by
  unfold mqtt_publish_data
  simp [hc, hl]
  constructor <;> by_cases h2 : transportMsgId < 0 <;> simp [h2]

/-- C10 witness: a concrete publish with payload "ab": length 0 turns
into 2 = strlen("ab"); length 5 is passed unchanged. -/
theorem publish_len_zero_means_strlen_witness :
    (mqtt_publish_data stateConnected (str "t") (str "ab") 0 0 false 3).call =
      some { topic := str "t", data := str "ab", len := 2,
             qos := 0, retain := false } ∧
    (mqtt_publish_data stateConnected (str "t") (str "ab") 5 0 false 3).call =
      some { topic := str "t", data := str "ab", len := 5,
             qos := 0, retain := false } := by
  have h := publish_len_zero_means_strlen stateConnected (str "t") (str "ab")
    5 0 false 3 (by decide) (by decide)
  exact ⟨by simpa using h.1, h.2⟩

/-- C `strncmp(s1, s2, n)` on NUL-free `List Char` strings (the implicit
NUL terminator sits at the end of each list): compare at most `n`
characters, stop early at a difference or when both strings end, and if
exactly one string ends the comparison against its terminator yields the
other string's character code (nonzero). -/
def cstrncmp : List Char → List Char → Nat → Int
  | _, _, 0 => 0
  | [], [], _ + 1 => 0
  | [], c :: _, _ + 1 => -(c.toNat : Int)
  | c :: _, [], _ + 1 => (c.toNat : Int)
  | a :: s1, b :: s2, n + 1 =>
    if a = b then cstrncmp s1 s2 n else (a.toNat : Int) - (b.toNat : Int)

/-- C `strstr(hay, needle) != NULL`: the needle occurs as a contiguous
substring of the haystack. -/
def strstrFound (hay needle : List Char) : Bool :=
  hay.tails.any (fun t => needle.isPrefixOf t)

/-- The NUL byte written after each bounded copy. -/
def nulChar : Char :=
  Char.ofNat 0

/-- The bounded copy performed by `processar_mensagem_mqtt`
(`src/services/mqtt.c` lines 229-238):
`copy_len = len < (bufSize - 1) ? len : (bufSize - 1)` followed by
`memcpy` of `copy_len` bytes — i.e. keep at most `cap = bufSize - 1`
leading bytes of the source. -/
def bounded_copy (cap : Nat) (src : List Char) : List Char :=
  src.take cap

/-- Contents of the working buffer after the bounded copy and the
explicit NUL terminator write (`topic_str[copy_len] = '\0'`). -/
def bounded_buffer (cap : Nat) (src : List Char) : List Char :=
  bounded_copy cap src ++ [nulChar]

/-- Action taken by `processar_mensagem_mqtt` on a message.  The C code
performs logging plus (commented-out) GPIO calls; each branch is one
constructor.  `bombaUnknownWarning` is the `ESP_LOGW` branch for an
unrecognized pump payload — a normal return, not an error (the function
returns `void` and has no error path).  `temperaturaReading` carries the
raw payload string; the C code parses it with `atof` (floating point,
outside this embedding).  `valvulaCommand` is the valve branch (the
valve number it logs is read from past the copied topic's terminator and
is not modelled). -/
inductive MqttAction where
  | bombaOn
  | bombaOff
  | bombaUnknownWarning (payload : List Char)
  | valvulaCommand
  | temperaturaReading (payload : List Char)
  | unhandled
deriving DecidableEq, Repr

/-- The branch logic of `processar_mensagem_mqtt`
(`src/services/mqtt.c` lines 248-313), applied to the NUL-terminated
working copies `topic_str` and `data_str`:
  1. `strncmp(topic_str, "demo/comandos/bomba", 24) == 0` → pump branch,
     with `strcmp` against "LIGAR" / "DESLIGAR";
  2. `strncmp(topic_str, "demo/comandos/valvula/", 27) == 0` → valve;
  3. `strstr(topic_str, "temperatura") != NULL` → temperature;
  4. otherwise → unhandled (debug log only). -/
def processar_dispatch (topicStr dataStr : List Char) : MqttAction :=
  if cstrncmp topicStr (str "demo/comandos/bomba") 24 = 0 then
    if dataStr = str "LIGAR" then MqttAction.bombaOn
    else if dataStr = str "DESLIGAR" then MqttAction.bombaOff
    else MqttAction.bombaUnknownWarning dataStr
  else if cstrncmp topicStr (str "demo/comandos/valvula/") 27 = 0 then
    MqttAction.valvulaCommand
  else if strstrFound topicStr (str "temperatura") then
    MqttAction.temperaturaReading dataStr
  else
    MqttAction.unhandled

/-- `processar_mensagem_mqtt` (`src/services/mqtt.c` lines 213-314):
copy at most 127 topic bytes and 255 payload bytes into NUL-terminated
working buffers (`char topic_str[128]`, `char data_str[256]`), then
dispatch on the copies. -/
def processar_mensagem_mqtt (topic data : List Char) : MqttAction :=
  processar_dispatch (bounded_copy 127 topic) (bounded_copy 255 data)

/-- C5: the handler's working copies hold at most 127 topic bytes and
255 payload bytes (exactly `min` of the input length and the bound),
each working buffer ends in the NUL terminator, and buffer contents
never exceed the declared 128/256-byte buffers. -/
theorem processar_bounded_copies (topic data : List Char) :
    (bounded_copy 127 topic).length = min topic.length 127 ∧
    (bounded_copy 127 topic).length ≤ 127 ∧
    (bounded_copy 255 data).length = min data.length 255 ∧
    (bounded_copy 255 data).length ≤ 255 ∧
    (bounded_buffer 127 topic).getLast? = some nulChar ∧
    (bounded_buffer 127 topic).length ≤ 128 ∧
    (bounded_buffer 255 data).getLast? = some nulChar ∧
    (bounded_buffer 255 data).length ≤ 256 := by
  refine ⟨?_, ?_, ?_, ?_, ?_, ?_, ?_, ?_⟩ <;>
    simp [bounded_copy, bounded_buffer, List.length_take, Nat.min_comm]

/-- C6: on the pump command topic `demo/comandos/bomba` (the command
topic of shape `<base>/commands/<device>` handled by the code), payload
"LIGAR" yields the on action, "DESLIGAR" the off action (exact,
case-sensitive `strcmp` comparison), and every other payload yields the
unknown-command warning — a normal return, not an error. -/
theorem bomba_command_dispatch (data : List Char) :
    processar_mensagem_mqtt (str "demo/comandos/bomba") data =
      (if bounded_copy 255 data = str "LIGAR" then MqttAction.bombaOn
       else if bounded_copy 255 data = str "DESLIGAR" then MqttAction.bombaOff
       else MqttAction.bombaUnknownWarning (bounded_copy 255 data)) := by
  rfl

/-- Comparing a strict extension of "demo/comandos/valvula/" against
that literal with `strncmp(..., 27)` reaches index 22, where the
literal's NUL terminator meets the extension's first extra character,
and yields that character's (nonzero) code. -/
theorem cstrncmp_valvula_extension (c : Char) (rest : List Char) :
    cstrncmp (str "demo/comandos/valvula/" ++ c :: rest)
      (str "demo/comandos/valvula/") 27 = (c.toNat : Int) :=
  rfl

/-- A topic starting "demo/comandos/v…" differs from the pump literal at
index 14 (`v` vs `b`), so the pump guard's `strncmp` returns 20. -/
theorem cstrncmp_valvula_vs_bomba (c : Char) (rest : List Char) :
    cstrncmp (str "demo/comandos/valvula/" ++ c :: rest)
      (str "demo/comandos/bomba") 24 = 20 :=
  rfl

/-- C9: for every topic that strictly extends "demo/comandos/valvula/"
by a character `c` (nonzero code, as all topic characters are) and a
tail, the valve-branch guard `strncmp(topic_str,
"demo/comandos/valvula/", 27)` is nonzero — the comparison runs past
the 22-character literal's terminator — so the valve branch is never
taken and the message falls through to the temperature or unhandled
branch. -/
theorem valvula_extension_not_matched (c : Char) (rest data : List Char)
    (h : c.toNat ≠ 0) :
    cstrncmp (bounded_copy 127 (str "demo/comandos/valvula/" ++ c :: rest))
        (str "demo/comandos/valvula/") 27 ≠ 0 ∧
    processar_mensagem_mqtt (str "demo/comandos/valvula/" ++ c :: rest) data
      ≠ MqttAction.valvulaCommand ∧
    (processar_mensagem_mqtt (str "demo/comandos/valvula/" ++ c :: rest) data
        = MqttAction.temperaturaReading (bounded_copy 255 data) ∨
     processar_mensagem_mqtt (str "demo/comandos/valvula/" ++ c :: rest) data
        = MqttAction.unhandled) := by
  have hcap : bounded_copy 127 (str "demo/comandos/valvula/" ++ c :: rest)
      = str "demo/comandos/valvula/" ++ c :: rest.take 104 := by
    simp [bounded_copy, List.take_append_eq_append_take, str]
  have hzero : ((c.toNat : Int) = 0) = False := by
    simp [Int.natCast_eq_zero, h]
  have hvalv : cstrncmp
      (bounded_copy 127 (str "demo/comandos/valvula/" ++ c :: rest))
      (str "demo/comandos/valvula/") 27 ≠ 0 := by
    rw [hcap, cstrncmp_valvula_extension]
    simp [Int.natCast_eq_zero, h]
  have hbomba : cstrncmp
      (bounded_copy 127 (str "demo/comandos/valvula/" ++ c :: rest))
      (str "demo/comandos/bomba") 24 = 20 := by
    rw [hcap, cstrncmp_valvula_vs_bomba]
  refine ⟨hvalv, ?_, ?_⟩ <;>
    unfold processar_mensagem_mqtt processar_dispatch <;>
    rw [hbomba] <;>
    simp [hvalv] <;>
    by_cases hs : strstrFound
      (bounded_copy 127 (str "demo/comandos/valvula/" ++ c :: rest))
      (str "temperatura") <;>
    simp [hs]

/-- C9 witness: the concrete topic "demo/comandos/valvula/3" (payload
"LIGAR") does not take the valve branch. -/
theorem valvula_extension_not_matched_witness :
    Char.toNat '3' ≠ 0 ∧
    processar_mensagem_mqtt (str "demo/comandos/valvula/" ++ '3' :: [])
        (str "LIGAR") ≠ MqttAction.valvulaCommand :=
  ⟨by decide,
   (valvula_extension_not_matched '3' [] (str "LIGAR") (by decide)).2.1⟩

/-- Split a topic string on the `/` separator into its levels.
Modelled from the spec: the sources contain no topic-matching code
(wildcard subscriptions such as "jardim/+/temperatura" and
"demo/comandos/#" are passed verbatim to `esp_mqtt_client_subscribe`
and matched by the broker); the spec's Topic Router specifies: split
both pattern and incoming topic on `/`. -/
def splitOnSlash : List Char → List (List Char)
  | [] => [[]]
  | c :: rest =>
    let r := splitOnSlash rest
    if c = '/' then [] :: r
    else
      match r with
      | [] => [[c]]
      | l :: ls => (c :: l) :: ls

/-- Modelled from the spec: level-by-level MQTT wildcard matching —
`+` matches any single level; `#` at the final pattern position matches
all remaining levels, including zero. -/
def matchLevels : List (List Char) → List (List Char) → Bool
  | [], ts => ts.isEmpty
  | p :: ps, ts =>
    if p == str "#" && ps.isEmpty then true
    else
      match ts with
      | [] => false
      | t :: ts2 => (p == str "+" || p == t) && matchLevels ps ts2

/-- Modelled from the spec: the Topic Router's wildcard pattern match
over `/`-separated levels. -/
def mqtt_topic_matches (pattern topic : List Char) : Bool :=
  matchLevels (splitOnSlash pattern) (splitOnSlash topic)

/-- C7: the matcher follows MQTT wildcard semantics on the spec's
examples — "a/+/c" matches "a/b/c" but not "a/b/d/c" (`+` is exactly
one level), and "a/#" matches "a", "a/b" and "a/b/c" (`#` in final
position covers zero or more trailing levels). -/
theorem wildcard_matching_semantics :
    mqtt_topic_matches (str "a/+/c") (str "a/b/c") = true ∧
    mqtt_topic_matches (str "a/+/c") (str "a/b/d/c") = false ∧
    mqtt_topic_matches (str "a/#") (str "a") = true ∧
    mqtt_topic_matches (str "a/#") (str "a/b") = true ∧
    mqtt_topic_matches (str "a/#") (str "a/b/c") = true := by
  decide

/-- Result of one `mqtt_app_start` call: the returned handle (`none` =
NULL), the state afterwards, and which transport primitives were
invoked. -/
structure StartOutcome where
  ret : Option Unit
  state : MqttState
  initCalled : Bool
  startCalled : Bool
deriving DecidableEq, Repr

/-- `mqtt_app_start` from `src/services/mqtt.c` (lines 322-419).  The
function builds `mqtt_cfg` and then — with no check of any prior state —
calls `esp_mqtt_client_init`, overwriting the global `mqtt_client`
handle, registers the event handler and calls `esp_mqtt_client_start`.
`initOk` and `startOk` are the oracles for the two transport calls
(`esp_mqtt_client_init` returning non-NULL, `esp_mqtt_client_start`
returning `ESP_OK`). -/
def mqtt_app_start (s : MqttState) (initOk startOk : Bool) : StartOutcome :=
  if initOk = false then
    { ret := none, state := { s with clientInit := false },
      initCalled := true, startCalled := false }
  else if startOk = false then
    { ret := none, state := { s with clientInit := true },
      initCalled := true, startCalled := true }
  else
    { ret := some (), state := { s with clientInit := true },
      initCalled := true, startCalled := true }

/-- C8 counterexample: calling `mqtt_app_start` from a state that is
already connected (client initialized, session Connected) does not fail
with a connect error — it calls `esp_mqtt_client_init` again and
returns the fresh handle. -/
theorem start_unguarded_counterexample :
    (mqtt_app_start stateConnected true true).ret ≠ none ∧
    (mqtt_app_start stateConnected true true).initCalled = true := by
  decide

/-- C8 amended: `mqtt_app_start` has no idempotency guard — from every
prior state, Connecting/Connected included, it calls
`esp_mqtt_client_init` (overwriting the prior client handle), and with
a healthy transport it returns the new handle instead of an error. -/
theorem start_always_reinitializes (s : MqttState) (initOk startOk : Bool) :
    (mqtt_app_start s initOk startOk).initCalled = true ∧
    (mqtt_app_start s true true).ret = some () := by
  unfold mqtt_app_start
  by_cases h : initOk = false <;> simp [h] <;>
    by_cases h2 : startOk = false <;> simp [h2]

/-- Decimal rendering of a `Nat`, as C's `%lu` produces. -/
def decimalNat (n : Nat) : List Char :=
  (toString n).toList

/-- Decimal rendering of an `Int`, as C's `%d` produces. -/
def decimalInt (i : Int) : List Char :=
  (toString i).toList

/-- The JSON message built by `custom_publish_task`
(`src/tasks/custom_publish_task.c` lines 33-36). -/
def custom_msg (publish_count : Nat) : List Char :=
  str "\x7b\"publish_count\":" ++ decimalNat publish_count ++
    str ",\"status\":\"operational\"\x7d"

/-- One cycle of `custom_publish_task`
(`src/tasks/custom_publish_task.c` lines 22-59): after the interval
wait, publish the JSON message (QoS 0, no retain) only if
`mqtt_system_is_connected()`; otherwise log and perform no publish
call.  The task's topic constant comes from the (absent) header
`custom_publish_task.h`, so it is a parameter.  The result lists the
`mqtt_publish_data` calls made during the cycle. -/
def custom_publish_task_cycle (customTopic : List Char) (connected : Bool)
    (publish_count : Nat) : List PublishCall :=
  if connected then
    [{ topic := customTopic, data := custom_msg (publish_count + 1),
       len := 0, qos := 0, retain := false }]
  else []

/-- One cycle of `sensor_simulate_task`
(`src/tasks/sensor_simulate_task.c` lines 25-43): if
`mqtt_system_is_connected()`, publish simulated luminosity
(`esp_random() % 11`) and temperature (`esp_random() % 49 - 3`), QoS 1;
otherwise perform no publish call.  `r1`, `r2` are the two
`esp_random()` draws. -/
def sensor_simulate_task_cycle (connected : Bool) (r1 r2 : Nat) :
    List PublishCall :=
  if connected then
    [{ topic := str "/casa/externo/luminosidade",
       data := decimalNat (r1 % 11), len := 0, qos := 1, retain := false },
     { topic := str "/casa/sala/temperatura",
       data := decimalInt (((r2 % 49 : Nat) : Int) - 3),
       len := 0, qos := 1, retain := false }]
  else []

/-- One cycle of `mqtt_publisher_task` (`src/services/mqtt.c` lines
505-564): publish the retained ONLINE status, the simulated temperature
and humidity readings and the JSON telemetry record — with no
connectivity check of any kind.  The three formatted payloads involve
`%.2f` floating-point formatting of the simulated readings, outside
this embedding, so they enter as parameters; `connected` is the
connection status during the cycle, which the code never consults. -/
def mqtt_publisher_task_cycle (connected : Bool)
    (tempStr umidStr telemStr : List Char) : List PublishCall :=
  [{ topic := str "demo/status/central", data := str "ONLINE",
     len := 0, qos := 1, retain := true },
   { topic := str "jardim/central/temperatura", data := tempStr,
     len := 0, qos := 0, retain := false },
   { topic := str "jardim/sensor1/umidade", data := umidStr,
     len := 0, qos := 0, retain := false },
   { topic := str "jardim/central/telemetria", data := telemStr,
     len := 0, qos := 1, retain := false }]

/-- C3 counterexample: a cycle of `mqtt_publisher_task` while not
connected still performs four publish calls. -/
theorem publisher_task_ignores_connectivity :
    mqtt_publisher_task_cycle false (str "20.00") (str "30.00")
        (str "x") ≠ [] ∧
    (mqtt_publisher_task_cycle false (str "20.00") (str "30.00")
        (str "x")).length = 4 := by
  decide

/-- C3 amended: in a not-connected cycle, `custom_publish_task` and
`sensor_simulate_task` perform no publish call (the attempt is skipped,
nothing is queued), while `mqtt_publisher_task` performs its four
publish calls every cycle regardless of connectivity. -/
theorem periodic_publishers_skip_when_disconnected
    (customTopic : List Char) (publish_count r1 r2 : Nat)
    (connected : Bool) (tempStr umidStr telemStr : List Char) :
    custom_publish_task_cycle customTopic false publish_count = [] ∧
    sensor_simulate_task_cycle false r1 r2 = [] ∧
    (mqtt_publisher_task_cycle connected tempStr umidStr telemStr).length
      = 4 :=
  ⟨rfl, rfl, rfl⟩

/-- Modelled from the spec: `mqtt_reset_statistics` is declared in
`src/services/mqtt_system.h` (lines 190-194: "Zera todos os
contadores, exceto desconexões e tempo desconectado") but its
definition is not among the sources.  It zeroes the throughput
counters and the last-message timestamp and preserves the two
session-health fields. -/
def mqtt_reset_statistics (s : mqtt_statistics_t) : mqtt_statistics_t :=
  { total_publicadas := 0, total_recebidas := 0, falhas_publicacao := 0,
    ultima_mensagem_ts := 0,
    desconexoes := s.desconexoes,
    tempo_desconectado_ms := s.tempo_desconectado_ms }

/-- C4: from every statistics state, the reset operation zeroes
`total_publicadas`, `total_recebidas`, `falhas_publicacao` and
`ultima_mensagem_ts`, and leaves `desconexoes` and
`tempo_desconectado_ms` at their prior values. -/
theorem reset_statistics_frame (s : mqtt_statistics_t) :
    (mqtt_reset_statistics s).total_publicadas = 0 ∧
    (mqtt_reset_statistics s).total_recebidas = 0 ∧
    (mqtt_reset_statistics s).falhas_publicacao = 0 ∧
    (mqtt_reset_statistics s).ultima_mensagem_ts = 0 ∧
    (mqtt_reset_statistics s).desconexoes = s.desconexoes ∧
    (mqtt_reset_statistics s).tempo_desconectado_ms
      = s.tempo_desconectado_ms :=
  ⟨rfl, rfl, rfl, rfl, rfl, rfl⟩
